import Mathlib

/-!
Verification of the delivery-status pipeline of the whatsapp-api repository.

The definitions below are a shallow embedding of the TypeScript source:
  * `src/schemas/message-status.schema.ts` (unnamed/part_003): the data model;
  * `MessageStatusService` (unnamed/part_009): record creation, status updates,
    statistics;
  * `EventsGateway.emitMessageStatusUpdate` (unnamed/part_004): the fan-out;
  * `WebhookController` (src/whatsapp/webhook.controller.ts): status-string
    mapping and the status-callback ingestion loop;
  * `WebhookSignatureGuard` (src/common/guards/webhook-signature.guard.ts):
    HMAC signature checking.

The Mongo store is modelled as a list of records; `findOne` on a message id is
a first-match scan, `save` on a found document replaces that document.  Dates
are modelled as natural numbers (milliseconds).  JavaScript numbers in the
statistics code are modelled as rationals.  The node `crypto` HMAC itself is
external library code, so it enters as a function parameter producing the
ASCII bytes of the lowercase hex digest.
-/

namespace WhatsappApi

/-- DeliveryStatus enum from schemas/message-status.schema.ts. -/
inductive DeliveryStatus where
  | pending
  | sent
  | delivered
  | read
  | failed
  deriving DecidableEq

/-- StatusUpdate subdocument from schemas/message-status.schema.ts: one
history entry. -/
structure StatusUpdate where
  status : DeliveryStatus
  timestamp : Nat
  errorCode : Option String := none
  errorMessage : Option String := none
  deriving DecidableEq

/-- MessageStatus document from schemas/message-status.schema.ts (the
DeliveryRecord of the spec).  The opaque `metadata : Record<string, any>` is
modelled as an optional association list. -/
structure MessageStatus where
  messageId : String
  recipientPhone : String
  conversationId : Option String := none
  currentStatus : DeliveryStatus
  statusHistory : List StatusUpdate
  sentAt : Option Nat := none
  deliveredAt : Option Nat := none
  readAt : Option Nat := none
  failedAt : Option Nat := none
  errorCode : Option String := none
  errorMessage : Option String := none
  metadata : Option (List (String × String)) := none
  deriving DecidableEq

/-- `messageStatusModel.findOne (\x7b messageId \x7d)`: first record in the
store whose messageId matches. -/
def findOne : List MessageStatus → String → Option MessageStatus
  | [], _ => none
  | r :: rs, mid => if r.messageId = mid then some r else findOne rs mid

/-- Mongoose `document.save()` on a document obtained from `findOne`:
the first record with the given messageId is replaced by the mutated one. -/
def replaceFirst : List MessageStatus → String → MessageStatus → List MessageStatus
  | [], _, _ => []
  | r :: rs, mid, r' => if r.messageId = mid then r' :: rs else r :: replaceFirst rs mid r'

/-- Canonical status ordering stated by the spec:
pending < sent < delivered < read, with failed outside the chain. -/
def statusRank : DeliveryStatus → Nat
  | .pending => 0
  | .sent => 1
  | .delivered => 2
  | .read => 3
  | .failed => 4

/-- Payload handed to EventsGateway.emitMessageStatusUpdate
(unnamed/part_004, lines 87 to 95). -/
structure StatusEventPayload where
  messageId : String
  recipientPhone : String
  conversationId : Option String
  status : DeliveryStatus
  timestamp : Nat
  errorCode : Option String
  errorMessage : Option String
  deriving DecidableEq

/-- One socket.io emission performed by the gateway: either to a named room
or to every connected client. -/
inductive Emission where
  | toRoom (room : String) (event : String) (payload : StatusEventPayload)
  | broadcast (event : String) (payload : StatusEventPayload)
  deriving DecidableEq

/-- EventsGateway.emitMessageStatusUpdate (unnamed/part_004, lines 87 to 108):
emit to the recipient status room, then to the conversation room when a
conversation id is present, then a global broadcast. -/
def emitMessageStatusUpdate (data : StatusEventPayload) : List Emission :=
  [Emission.toRoom ("status-" ++ data.recipientPhone) "messageStatusUpdate" data]
    ++ (match data.conversationId with
        | some cid => [Emission.toRoom ("conversation-" ++ cid) "messageStatusUpdate" data]
        | none => [])
    ++ [Emission.broadcast "messageStatusChanged" data]

/-- The found branch of MessageStatusService.updateStatus (unnamed/part_009,
lines 66 to 93): push the history entry, overwrite currentStatus, set the
per-status timestamp field, and on failed persist the error fields. -/
def applyStatusToRecord (ms : MessageStatus) (status : DeliveryStatus) (timestamp : Nat)
    (errorCode errorMessage : Option String) : MessageStatus :=
  let ms1 := { ms with
    statusHistory := ms.statusHistory ++ [⟨status, timestamp, errorCode, errorMessage⟩],
    currentStatus := status }
  match status with
  | .sent => { ms1 with sentAt := some timestamp }
  | .delivered => { ms1 with deliveredAt := some timestamp }
  | .read => { ms1 with readAt := some timestamp }
  | .failed =>
    { ms1 with failedAt := some timestamp, errorCode := errorCode, errorMessage := errorMessage }
  | .pending => ms1

/-- MessageStatusService.updateStatus (unnamed/part_009, lines 52 to 110).
Returns the store after the call, the value returned to the caller
(null when no record matches the message id) and the websocket emissions
performed.  On a miss only a warning is logged: nothing is mutated and
nothing is emitted. -/
def updateStatus (store : List MessageStatus) (messageId : String) (status : DeliveryStatus)
    (timestamp : Nat) (errorCode errorMessage : Option String) :
    List MessageStatus × Option MessageStatus × List Emission :=
  match findOne store messageId with
  | none => (store, none, [])
  | some ms =>
    let updated := applyStatusToRecord ms status timestamp errorCode errorMessage
    (replaceFirst store messageId updated, some updated,
      emitMessageStatusUpdate {
        messageId := messageId,
        recipientPhone := ms.recipientPhone,
        conversationId := ms.conversationId,
        status := status,
        timestamp := timestamp,
        errorCode := errorCode,
        errorMessage := errorMessage })

/-- MessageStatusService.createMessageStatus (unnamed/part_009, lines 24 to
47): a fresh record with currentStatus pending and a single pending history
entry; `new Date()` is the `now` parameter. -/
def createMessageStatus (store : List MessageStatus) (messageId recipientPhone : String)
    (conversationId : Option String) (metadata : Option (List (String × String)))
    (now : Nat) : List MessageStatus × MessageStatus :=
  let messageStatus : MessageStatus := {
    messageId := messageId,
    recipientPhone := recipientPhone,
    conversationId := conversationId,
    currentStatus := .pending,
    statusHistory := [⟨.pending, now, none, none⟩],
    metadata := metadata }
  (store ++ [messageStatus], messageStatus)

/-- A sequence of updateStatus calls on one message id, threading the store. -/
def runCalls (store : List MessageStatus) (mid : String) : List StatusUpdate → List MessageStatus
  | [] => store
  | e :: es =>
    runCalls (updateStatus store mid e.status e.timestamp e.errorCode e.errorMessage).1 mid es

/-- WebhookController.mapWhatsAppStatus (webhook.controller.ts, lines 207 to
220): the switch over the provider status string, defaulting to pending. -/
def mapWhatsAppStatus (whatsappStatus : String) : DeliveryStatus :=
  if whatsappStatus = "sent" then .sent
  else if whatsappStatus = "delivered" then .delivered
  else if whatsappStatus = "read" then .read
  else if whatsappStatus = "failed" then .failed
  else .pending

/-- One entry of value.statuses in a provider callback
(webhook.controller.ts, lines 155 to 167).  The timestamp is the parsed unix
seconds value; errorCode and errorMessage are the values extracted from
errors[0] when present. -/
structure WebhookStatusEntry where
  id : String
  status : String
  timestamp : Nat
  errorCode : Option String := none
  errorMessage : Option String := none
  deriving DecidableEq

/-- The response object returned by WebhookController.receiveWebhook. -/
inductive WebhookResult where
  | ok
  | ignored (message : String)
  | error (message : String)
  deriving DecidableEq

/-- State threaded through webhook ingestion: the message status store plus
the raw-webhook store.  Modelled from the spec: WebhooksService
(services/webhooks.service.ts) is imported by the controller but its source
is not part of the repository snapshot; the spec requires that ingestion of
an orphan callback never throws, so addWebhook and the webhook-side
updateStatus are modelled as total log appends. -/
structure WebhookState where
  msgStore : List MessageStatus
  webhookLog : List (String × String) := []
  webhookStatusLog : List (String × String) := []
  deriving DecidableEq

/-- Loop body of the statuses branch of receiveWebhook
(webhook.controller.ts, lines 155 to 179): map the provider status string,
convert unix seconds to milliseconds, call
MessageStatusService.updateStatus, then record the webhook-side status. -/
def processStatusEntry (ws : WebhookState) (e : WebhookStatusEntry) :
    WebhookState × List Emission :=
  let deliveryStatus := mapWhatsAppStatus e.status
  let timestampMs := e.timestamp * 1000
  let result := updateStatus ws.msgStore e.id deliveryStatus timestampMs e.errorCode e.errorMessage
  ({ ws with
      msgStore := result.1,
      webhookStatusLog := ws.webhookStatusLog ++ [(e.id, e.status)] },
   result.2.2)

/-- The statuses branch of WebhookController.receiveWebhook
(webhook.controller.ts, lines 77 to 191) for a payload whose value carries a
statuses array: the webhook is saved, each status entry is processed in
order, and the endpoint replies with status ok.  No statement on this branch
throws, so the catch branch that would produce an error response is not
reachable from it. -/
def receiveWebhookStatuses (ws : WebhookState) (entries : List WebhookStatusEntry) :
    WebhookState × List Emission × WebhookResult :=
  let ws1 := { ws with webhookLog := ws.webhookLog ++ [("status", "statuses")] }
  let folded := entries.foldl
    (fun acc e =>
      let step := processStatusEntry acc.1 e
      (step.1, acc.2 ++ step.2))
    ((ws1, []) : WebhookState × List Emission)
  (folded.1, folded.2, WebhookResult.ok)

/-- JavaScript Math.round for the nonnegative rates arising here: round half
up.  JavaScript numbers are modelled as rationals. -/
def mathRound (q : ℚ) : ℤ := ⌊q + 1/2⌋

/-- Return shape of MessageStatusService.getStatistics. -/
structure Statistics where
  total : Nat
  pending : Nat
  sent : Nat
  delivered : Nat
  read : Nat
  failed : Nat
  deliveryRate : ℚ
  readRate : ℚ
  deriving DecidableEq

/-- MessageStatusService.getStatistics (unnamed/part_009, lines 172 to 230).
The six per-status counts come from countDocuments queries on the store and
enter as parameters; the function computes the guarded rates and rounds them
to two decimals with Math.round(rate * 100) / 100. -/
def getStatistics (total pending sent delivered read failed : Nat) : Statistics :=
  let successfullyDelivered := delivered + read
  let deliveryRate : ℚ :=
    if 0 < total then ((successfullyDelivered : ℚ) / (total : ℚ)) * 100 else 0
  let readRate : ℚ :=
    if 0 < successfullyDelivered
    then ((read : ℚ) / ((successfullyDelivered : Nat) : ℚ)) * 100 else 0
  { total := total, pending := pending, sent := sent, delivered := delivered,
    read := read, failed := failed,
    deliveryRate := (mathRound (deliveryRate * 100) : ℚ) / 100,
    readRate := (mathRound (readRate * 100) : ℚ) / 100 }

/-- Byte strings (node Buffer contents), one natural number per byte. -/
abbrev Bytes := List Nat

/-- ASCII bytes of the fixed scheme marker that the guard prepends to the
hex digest ("sha256=" on line 60 of webhook-signature.guard.ts). -/
def sha256SchemeBytes : Bytes := "sha256=".toList.map Char.toNat

/-- Error message thrown by crypto.timingSafeEqual on a length mismatch. -/
def timingSafeEqualMsg : String := "Input buffers must have the same byte length"

/-- crypto.timingSafeEqual: throws when the two buffers differ in length,
otherwise reports byte equality (constant-time in the real library). -/
def timingSafeEqual (a b : Bytes) : Except String Bool :=
  if a.length = b.length then Except.ok (decide (a = b)) else Except.error timingSafeEqualMsg

/-- The expected signature computed on lines 59 to 64 of
webhook-signature.guard.ts: the scheme marker followed by the lowercase hex
HMAC-SHA256 digest of the payload under the secret.  The HMAC itself is node
library code, so it enters as the parameter hmacHex, returning the ASCII
bytes of the hex digest. -/
def expectedSignatureBytes (hmacHex : String → Bytes → Bytes) (appSecret : String)
    (payload : Bytes) : Bytes :=
  sha256SchemeBytes ++ hmacHex appSecret payload

/-- The try block of WebhookSignatureGuard.verifySignature (lines 58 to 69):
compute the expected signature and compare with timingSafeEqual. -/
def verifySignatureBody (hmacHex : String → Bytes → Bytes) (appSecret : String)
    (payload signature : Bytes) : Except String Bool :=
  timingSafeEqual signature (expectedSignatureBytes hmacHex appSecret payload)

/-- WebhookSignatureGuard.verifySignature (lines 57 to 75): the catch clause
maps any thrown comparison error to false. -/
def verifySignature (hmacHex : String → Bytes → Bytes) (appSecret : String)
    (payload signature : Bytes) : Bool :=
  match verifySignatureBody hmacHex appSecret payload signature with
  | Except.ok b => b
  | Except.error _ => false

/-- Outcome of the guard: accept lets the request through, reject models the
thrown UnauthorizedException. -/
inductive GuardDecision where
  | accept
  | reject
  deriving DecidableEq

/-- WebhookSignatureGuard.canActivate (lines 20 to 55).  An empty appSecret
is falsy in JavaScript, which is the not-configured development mode: accept
with a warning.  A missing (or falsy) signature header rejects, a missing
raw body rejects, otherwise the outcome follows verifySignature. -/
def canActivate (hmacHex : String → Bytes → Bytes) (appSecret : String)
    (signatureHeader : Option Bytes) (rawBody : Option Bytes) : GuardDecision :=
  if appSecret = "" then GuardDecision.accept
  else
    match signatureHeader with
    | none => GuardDecision.reject
    | some signature =>
      match rawBody with
      | none => GuardDecision.reject
      | some body =>
        if verifySignature hmacHex appSecret body signature
        then GuardDecision.accept
        else GuardDecision.reject

/-- Provider response data returned by the send call
(interfaces/whatsapp.interface.ts): the provider-assigned message ids. -/
structure WhatsappApiResponse where
  messagingProduct : String
  messageIds : List String
  deriving DecidableEq

/-- Application state visible to the outbound send path: the raw-webhook log
(Modelled from the spec: WebhooksService is absent from the snapshot and its
addWebhook is a total log append) and the MessageStatusService store. -/
structure AppState where
  webhookLog : List (String × String) := []
  messageStatusStore : List MessageStatus := []
  deriving DecidableEq

/-- Success path of WhatsappService.sendMessage (whatsapp.service.ts, lines
60 to 92).  The HTTP POST to the provider is external, so its successful
response is a parameter.  Effects: one outbound webhook record of type
message_sent is saved, and the provider response data is returned.  No call
into MessageStatusService occurs on this path. -/
def sendMessage (st : AppState) (dest _message : String)
    (providerResponse : WhatsappApiResponse) : AppState × WhatsappApiResponse :=
  ({ st with webhookLog := st.webhookLog ++ [("message_sent", dest)] }, providerResponse)

/-- WhatsappService.sendTextMessage (lines 115 to 124): delegates to
sendMessage with type text. -/
def sendTextMessage (st : AppState) (dest text : String)
    (providerResponse : WhatsappApiResponse) : AppState × WhatsappApiResponse :=
  sendMessage st dest text providerResponse

/-- WhatsappQueueProcessor.processTextMessage (whatsapp-queue.processor.ts,
lines 70 to 73): the worker body for a text job delegates to
sendTextMessage, so a successful job run produces exactly the sendMessage
effects. -/
def processTextMessage (st : AppState) (dest text : String)
    (providerResponse : WhatsappApiResponse) : AppState × WhatsappApiResponse :=
  sendTextMessage st dest text providerResponse

/-- Concrete record used to instantiate witnesses: a freshly seeded pending
record. -/
def sampleRecord : MessageStatus :=
  { messageId := "m1", recipientPhone := "+221700000000",
    currentStatus := DeliveryStatus.pending,
    statusHistory := [⟨DeliveryStatus.pending, 0, none, none⟩] }

/-- Concrete record with a conversation id, used to instantiate witnesses. -/
def sampleRecordConv : MessageStatus :=
  { messageId := "m2", recipientPhone := "+221700000001",
    conversationId := some "c1",
    currentStatus := DeliveryStatus.sent,
    statusHistory := [⟨DeliveryStatus.pending, 0, none, none⟩,
                      ⟨DeliveryStatus.sent, 1, none, none⟩] }

/-- Concrete stand-in for the external HMAC hex function, used only to
instantiate witnesses at a computable input. -/
def hmacSample (secret : String) (payload : Bytes) : Bytes :=
  [payload.length % 256, secret.length % 256]

theorem findOne_eq_some {store : List MessageStatus} {mid : String} {r : MessageStatus}
    (h : findOne store mid = some r) : r.messageId = mid := by
  induction store with
  | nil => simp [findOne] at h
  | cons x xs ih =>
    by_cases hx : x.messageId = mid
    · simp [findOne, hx] at h
      subst h
      exact hx
    · simp [findOne, hx] at h
      exact ih h

@[simp] theorem applyStatusToRecord_messageId (ms : MessageStatus) (st : DeliveryStatus)
    (t : Nat) (ec em : Option String) :
    (applyStatusToRecord ms st t ec em).messageId = ms.messageId := by
  cases st <;> rfl

@[simp] theorem applyStatusToRecord_recipientPhone (ms : MessageStatus) (st : DeliveryStatus)
    (t : Nat) (ec em : Option String) :
    (applyStatusToRecord ms st t ec em).recipientPhone = ms.recipientPhone := by
  cases st <;> rfl

@[simp] theorem applyStatusToRecord_conversationId (ms : MessageStatus) (st : DeliveryStatus)
    (t : Nat) (ec em : Option String) :
    (applyStatusToRecord ms st t ec em).conversationId = ms.conversationId := by
  cases st <;> rfl

@[simp] theorem applyStatusToRecord_metadata (ms : MessageStatus) (st : DeliveryStatus)
    (t : Nat) (ec em : Option String) :
    (applyStatusToRecord ms st t ec em).metadata = ms.metadata := by
  cases st <;> rfl

@[simp] theorem applyStatusToRecord_currentStatus (ms : MessageStatus) (st : DeliveryStatus)
    (t : Nat) (ec em : Option String) :
    (applyStatusToRecord ms st t ec em).currentStatus = st := by
  cases st <;> rfl

@[simp] theorem applyStatusToRecord_statusHistory (ms : MessageStatus) (st : DeliveryStatus)
    (t : Nat) (ec em : Option String) :
    (applyStatusToRecord ms st t ec em).statusHistory
      = ms.statusHistory ++ [⟨st, t, ec, em⟩] := by
  cases st <;> rfl

theorem findOne_replaceFirst {store : List MessageStatus} {mid : String}
    (r' : MessageStatus) (hr' : r'.messageId = mid)
    (h : (findOne store mid).isSome) :
    findOne (replaceFirst store mid r') mid = some r' := by
  induction store with
  | nil => simp [findOne] at h
  | cons x xs ih =>
    by_cases hx : x.messageId = mid
    · simp [findOne, replaceFirst, hx, hr']
    · simp [findOne, replaceFirst, hx] at h ⊢
      exact ih h

theorem updateStatus_found {store : List MessageStatus} {mid : String} {r : MessageStatus}
    (st : DeliveryStatus) (t : Nat) (ec em : Option String)
    (h : findOne store mid = some r) :
    updateStatus store mid st t ec em =
      (replaceFirst store mid (applyStatusToRecord r st t ec em),
       some (applyStatusToRecord r st t ec em),
       emitMessageStatusUpdate
         ⟨mid, r.recipientPhone, r.conversationId, st, t, ec, em⟩) := by
  unfold updateStatus
  rw [h]

theorem findOne_after_update {store : List MessageStatus} {mid : String} {r : MessageStatus}
    (st : DeliveryStatus) (t : Nat) (ec em : Option String)
    (h : findOne store mid = some r) :
    findOne (updateStatus store mid st t ec em).1 mid
      = some (applyStatusToRecord r st t ec em) := by
  rw [updateStatus_found st t ec em h]
  exact findOne_replaceFirst _
    (by rw [applyStatusToRecord_messageId, findOne_eq_some h])
    (by rw [h]; rfl)

theorem runCalls_currentStatus (mid : String) (es : List StatusUpdate) :
    ∀ (e : StatusUpdate) (store : List MessageStatus) (r : MessageStatus),
      findOne store mid = some r →
      (findOne (runCalls store mid (e :: es)) mid).map MessageStatus.currentStatus
        = some (es.getLastD e).status := by
  induction es with
  | nil =>
    intro e store r h
    have hf := findOne_after_update e.status e.timestamp e.errorCode e.errorMessage h
    simp [runCalls, hf]
  | cons e2 es2 ih =>
    intro e store r h
    have h1 := findOne_after_update e.status e.timestamp e.errorCode e.errorMessage h
    have h2 := ih e2 _ _ h1
    rw [List.getLastD_cons]
    simpa [runCalls] using h2

/-- C1 counterexample: the code has no regression guard.  Starting from a
freshly created record for message m1, applying delivered and then the
earlier status sent leaves currentStatus at sent, although sent precedes
delivered in the canonical ordering, so the claimed invariant that
currentStatus never moves backward fails on this input. -/
theorem updateStatus_regresses_currentStatus :
    statusRank DeliveryStatus.sent < statusRank DeliveryStatus.delivered ∧
    ((updateStatus
        ((updateStatus (createMessageStatus [] "m1" "+221700000000" none none 0).1
            "m1" DeliveryStatus.delivered 1 none none).1)
        "m1" DeliveryStatus.sent 2 none none).2.1).map MessageStatus.currentStatus
      = some DeliveryStatus.sent ∧
    ((updateStatus
        ((updateStatus (createMessageStatus [] "m1" "+221700000000" none none 0).1
            "m1" DeliveryStatus.delivered 1 none none).1)
        "m1" DeliveryStatus.sent 2 none none).2.1).map MessageStatus.currentStatus
      ≠ some DeliveryStatus.delivered := by
  refine ⟨by decide, by decide, by decide⟩

/-- C1 amended: updateStatus overwrites currentStatus unconditionally, so
after any nonempty sequence of calls on an existing record, currentStatus
equals the status of the last call, regressions included; only the history
keeps the full audit trail. -/
theorem updateStatus_last_call_wins (store : List MessageStatus) (mid : String)
    (r : MessageStatus) (e : StatusUpdate) (es : List StatusUpdate)
    (h : findOne store mid = some r) :
    (findOne (runCalls store mid (e :: es)) mid).map MessageStatus.currentStatus
      = some (es.getLastD e).status :=
  runCalls_currentStatus mid es e store r h

theorem updateStatus_last_call_wins_witness :
    findOne [sampleRecord] "m1" = some sampleRecord ∧
    (findOne (runCalls [sampleRecord] "m1"
        [⟨DeliveryStatus.delivered, 1, none, none⟩, ⟨DeliveryStatus.sent, 2, none, none⟩])
      "m1").map MessageStatus.currentStatus = some DeliveryStatus.sent :=
  ⟨by decide,
   updateStatus_last_call_wins [sampleRecord] "m1" sampleRecord
     ⟨DeliveryStatus.delivered, 1, none, none⟩
     [⟨DeliveryStatus.sent, 2, none, none⟩] (by decide)⟩

/-- C2: the claim says every successful provider send seeds a DeliveryRecord
with currentStatus pending under the returned message id.  The code defines
createMessageStatus for exactly that purpose (and it does produce a pending
record), but no send path invokes it: the worker text-job path through
sendTextMessage and sendMessage leaves the message status store untouched,
so after a successful send no record exists under the returned id. -/
theorem sendPath_seeds_no_delivery_record :
    (∀ (st : AppState) (dest msg : String) (resp : WhatsappApiResponse),
      (processTextMessage st dest msg resp).1.messageStatusStore = st.messageStatusStore) ∧
    (createMessageStatus [] "wamid.test123" "+221700000000" none none 0).2.currentStatus
      = DeliveryStatus.pending ∧
    findOne (processTextMessage ⟨[], []⟩ "+221700000000" "hello"
        { messagingProduct := "whatsapp", messageIds := ["wamid.test123"] }).1.messageStatusStore
      "wamid.test123" = none := by
  refine ⟨?_, rfl, rfl⟩
  intro st dest msg resp
  rfl

theorem verifySignature_eq_true_iff (hmacHex : String → Bytes → Bytes) (appSecret : String)
    (payload signature : Bytes) :
    verifySignature hmacHex appSecret payload signature = true ↔
      signature = expectedSignatureBytes hmacHex appSecret payload := by
  unfold verifySignature verifySignatureBody timingSafeEqual
  by_cases hlen : signature.length = (expectedSignatureBytes hmacHex appSecret payload).length
  · simp [hlen]
  · rw [if_neg hlen]
    constructor
    · intro hcontra
      exact absurd hcontra (by simp)
    · intro heq
      exact absurd (congrArg List.length heq) hlen

/-- C3: with a nonempty secret configured, the guard accepts exactly the
header equal to the scheme marker followed by the HMAC hex digest of the raw
body: the correct signature accepts, any other signature bytes (in
particular any single-byte alteration) reject, any payload whose digest
differs (in particular any single-byte alteration under a collision-free
MAC) rejects against the original signature, and with no secret configured
every request is accepted. -/
theorem canActivate_authenticity (hmacHex : String → Bytes → Bytes) (S : String)
    (P sig Q : Bytes) (osig obody : Option Bytes)
    (hS : S ≠ "") (hsig : sig ≠ expectedSignatureBytes hmacHex S P)
    (hQ : hmacHex S Q ≠ hmacHex S P) :
    canActivate hmacHex S (some (expectedSignatureBytes hmacHex S P)) (some P)
      = GuardDecision.accept ∧
    canActivate hmacHex S (some sig) (some P) = GuardDecision.reject ∧
    canActivate hmacHex S (some (expectedSignatureBytes hmacHex S P)) (some Q)
      = GuardDecision.reject ∧
    canActivate hmacHex "" osig obody = GuardDecision.accept := by
  have hacc : verifySignature hmacHex S P (expectedSignatureBytes hmacHex S P) = true :=
    (verifySignature_eq_true_iff hmacHex S P _).mpr rfl
  have hrej : verifySignature hmacHex S P sig = false := by
    cases hval : verifySignature hmacHex S P sig
    · rfl
    · exact absurd ((verifySignature_eq_true_iff hmacHex S P sig).mp hval) hsig
  have hne : expectedSignatureBytes hmacHex S P ≠ expectedSignatureBytes hmacHex S Q := by
    intro heq
    exact hQ (List.append_cancel_left heq.symm)
  have hrejQ : verifySignature hmacHex S Q (expectedSignatureBytes hmacHex S P) = false := by
    cases hval : verifySignature hmacHex S Q (expectedSignatureBytes hmacHex S P)
    · rfl
    · exact absurd ((verifySignature_eq_true_iff hmacHex S Q _).mp hval) hne
  refine ⟨?_, ?_, ?_, ?_⟩
  · simp [canActivate, hS, hacc]
  · simp [canActivate, hS, hrej]
  · simp [canActivate, hS, hrejQ]
  · simp [canActivate]

theorem canActivate_authenticity_witness :
    (("secret" : String) ≠ "" ∧
      ([] : Bytes) ≠ expectedSignatureBytes hmacSample "secret" [1, 2, 3] ∧
      hmacSample "secret" [9] ≠ hmacSample "secret" [1, 2, 3]) ∧
    (canActivate hmacSample "secret"
        (some (expectedSignatureBytes hmacSample "secret" [1, 2, 3])) (some [1, 2, 3])
      = GuardDecision.accept ∧
    canActivate hmacSample "secret" (some []) (some [1, 2, 3]) = GuardDecision.reject ∧
    canActivate hmacSample "secret"
        (some (expectedSignatureBytes hmacSample "secret" [1, 2, 3])) (some [9])
      = GuardDecision.reject ∧
    canActivate hmacSample "" none none = GuardDecision.accept) :=
  ⟨⟨by decide, by decide, by decide⟩,
   canActivate_authenticity hmacSample "secret" [1, 2, 3] [] [9] none none
     (by decide) (by decide) (by decide)⟩

/-- C4: a status callback whose provider message id matches no record is a
no-op on the store: updateStatus returns null without mutating anything and
performs no emission, and the ingestion branch that processed the callback
still answers the provider with status ok. -/
theorem updateStatus_orphan_noop (ws : WebhookState) (e : WebhookStatusEntry)
    (st : DeliveryStatus) (t : Nat) (ec em : Option String)
    (h : findOne ws.msgStore e.id = none) :
    updateStatus ws.msgStore e.id st t ec em = (ws.msgStore, none, []) ∧
    (receiveWebhookStatuses ws [e]).1.msgStore = ws.msgStore ∧
    (receiveWebhookStatuses ws [e]).2.1 = [] ∧
    (receiveWebhookStatuses ws [e]).2.2 = WebhookResult.ok := by
  have hu : ∀ st2 t2 ec2 em2,
      updateStatus ws.msgStore e.id st2 t2 ec2 em2 = (ws.msgStore, none, []) := by
    intro st2 t2 ec2 em2
    unfold updateStatus
    rw [h]
  refine ⟨hu st t ec em, ?_, ?_, rfl⟩
  · simp [receiveWebhookStatuses, processStatusEntry, hu]
  · simp [receiveWebhookStatuses, processStatusEntry, hu]

theorem updateStatus_orphan_noop_witness :
    findOne (WebhookState.msgStore ⟨[], [], []⟩)
        (WebhookStatusEntry.id ⟨"wamid.unknown", "delivered", 3, none, none⟩) = none ∧
    (updateStatus (WebhookState.msgStore ⟨[], [], []⟩) "wamid.unknown"
        DeliveryStatus.delivered 3000 none none
      = (WebhookState.msgStore ⟨[], [], []⟩, none, []) ∧
    (receiveWebhookStatuses ⟨[], [], []⟩ [⟨"wamid.unknown", "delivered", 3, none, none⟩]).1.msgStore
      = WebhookState.msgStore ⟨[], [], []⟩ ∧
    (receiveWebhookStatuses ⟨[], [], []⟩ [⟨"wamid.unknown", "delivered", 3, none, none⟩]).2.1
      = [] ∧
    (receiveWebhookStatuses ⟨[], [], []⟩ [⟨"wamid.unknown", "delivered", 3, none, none⟩]).2.2
      = WebhookResult.ok) :=
  ⟨by decide,
   updateStatus_orphan_noop ⟨[], [], []⟩ ⟨"wamid.unknown", "delivered", 3, none, none⟩
     DeliveryStatus.delivered 3000 none none (by decide)⟩

/-- C5: getStatistics computes deliveryRate as (delivered + read) / total *
100 and readRate as read / (delivered + read) * 100, both rounded to two
decimal places with round half up, with each rate exactly 0 when its
denominator is 0; on total 100, delivered 40, read 10 the rates are 50 and
20. -/
theorem getStatistics_rates (total pending sent delivered read failed : Nat) :
    ((getStatistics total pending sent delivered read failed).deliveryRate =
      if 0 < total
      then (mathRound (((delivered : ℚ) + (read : ℚ)) / (total : ℚ) * 100 * 100) : ℚ) / 100
      else 0) ∧
    ((getStatistics total pending sent delivered read failed).readRate =
      if 0 < delivered + read
      then (mathRound ((read : ℚ) / ((delivered : ℚ) + (read : ℚ)) * 100 * 100) : ℚ) / 100
      else 0) ∧
    (getStatistics 100 30 20 40 10 0).deliveryRate = 50 ∧
    (getStatistics 100 30 20 40 10 0).readRate = 20 ∧
    (getStatistics 0 0 0 0 0 0).deliveryRate = 0 ∧
    (getStatistics 0 0 0 0 0 0).readRate = 0 ∧
    (getStatistics 5 3 2 0 0 0).readRate = 0 := by
  refine ⟨?_, ?_, ?_, ?_, ?_, ?_, ?_⟩
  · by_cases h : 0 < total
    · simp only [getStatistics, if_pos h]
      push_cast
      ring_nf
    · simp only [getStatistics, if_neg h]
      norm_num [mathRound]
  · by_cases h : 0 < delivered + read
    · simp only [getStatistics, if_pos h]
      push_cast
      ring_nf
    · simp only [getStatistics, if_neg h]
      norm_num [mathRound]
  · norm_num [getStatistics, mathRound]
  · norm_num [getStatistics, mathRound]
  · norm_num [getStatistics, mathRound]
  · norm_num [getStatistics, mathRound]
  · norm_num [getStatistics, mathRound]

/-- C6: the provider status mapping sends the four recognized strings to
their enum values and every other string, the empty string and the literal
string pending included, to pending; it is a total function. -/
theorem mapWhatsAppStatus_canonical :
    mapWhatsAppStatus "sent" = DeliveryStatus.sent ∧
    mapWhatsAppStatus "delivered" = DeliveryStatus.delivered ∧
    mapWhatsAppStatus "read" = DeliveryStatus.read ∧
    mapWhatsAppStatus "failed" = DeliveryStatus.failed ∧
    mapWhatsAppStatus "" = DeliveryStatus.pending ∧
    mapWhatsAppStatus "pending" = DeliveryStatus.pending ∧
    ∀ s : String, s ≠ "sent" → s ≠ "delivered" → s ≠ "read" → s ≠ "failed" →
      mapWhatsAppStatus s = DeliveryStatus.pending := by
  refine ⟨rfl, rfl, rfl, rfl, rfl, rfl, ?_⟩
  intro s h1 h2 h3 h4
  simp [mapWhatsAppStatus, h1, h2, h3, h4]

theorem mapWhatsAppStatus_canonical_witness :
    mapWhatsAppStatus "read_by_all" = DeliveryStatus.pending :=
  mapWhatsAppStatus_canonical.2.2.2.2.2.2 "read_by_all"
    (by decide) (by decide) (by decide) (by decide)

/-- C7: applying the identical status event twice to an existing record
appends two identical history entries while currentStatus after the second
call equals currentStatus after the first, so it changes at most once net. -/
theorem updateStatus_duplicate_event (store : List MessageStatus) (mid : String)
    (r : MessageStatus) (st : DeliveryStatus) (t : Nat) (ec em : Option String)
    (h : findOne store mid = some r) :
    ((updateStatus store mid st t ec em).2.1).map MessageStatus.currentStatus = some st ∧
    ((updateStatus (updateStatus store mid st t ec em).1 mid st t ec em).2.1).map
        MessageStatus.statusHistory
      = some (r.statusHistory ++ [⟨st, t, ec, em⟩, ⟨st, t, ec, em⟩]) ∧
    ((updateStatus (updateStatus store mid st t ec em).1 mid st t ec em).2.1).map
        MessageStatus.currentStatus
      = ((updateStatus store mid st t ec em).2.1).map MessageStatus.currentStatus := by
  have h1 := findOne_after_update st t ec em h
  rw [updateStatus_found st t ec em h1, updateStatus_found st t ec em h]
  exact ⟨by simp, by simp, by simp⟩

theorem updateStatus_duplicate_event_witness :
    findOne [sampleRecord] "m1" = some sampleRecord ∧
    (((updateStatus [sampleRecord] "m1" DeliveryStatus.delivered 5 none none).2.1).map
        MessageStatus.currentStatus = some DeliveryStatus.delivered ∧
    ((updateStatus (updateStatus [sampleRecord] "m1" DeliveryStatus.delivered 5 none none).1
          "m1" DeliveryStatus.delivered 5 none none).2.1).map MessageStatus.statusHistory
      = some (sampleRecord.statusHistory ++
          [⟨DeliveryStatus.delivered, 5, none, none⟩, ⟨DeliveryStatus.delivered, 5, none, none⟩]) ∧
    ((updateStatus (updateStatus [sampleRecord] "m1" DeliveryStatus.delivered 5 none none).1
          "m1" DeliveryStatus.delivered 5 none none).2.1).map MessageStatus.currentStatus
      = ((updateStatus [sampleRecord] "m1" DeliveryStatus.delivered 5 none none).2.1).map
          MessageStatus.currentStatus) :=
  ⟨by decide,
   updateStatus_duplicate_event [sampleRecord] "m1" sampleRecord
     DeliveryStatus.delivered 5 none none (by decide)⟩

/-- C8: every updateStatus call that finds its record performs exactly one
fan-out publish, regressions included, and the emissions are, in order: the
recipient status room, then the conversation room exactly when a
conversation id is present on the record, then the global broadcast. -/
theorem updateStatus_fanout_order (store : List MessageStatus) (mid : String)
    (r : MessageStatus) (st : DeliveryStatus) (t : Nat) (ec em : Option String)
    (h : findOne store mid = some r) :
    (updateStatus store mid st t ec em).2.2 =
      [Emission.toRoom ("status-" ++ r.recipientPhone) "messageStatusUpdate"
          ⟨mid, r.recipientPhone, r.conversationId, st, t, ec, em⟩]
        ++ (match r.conversationId with
            | some cid =>
              [Emission.toRoom ("conversation-" ++ cid) "messageStatusUpdate"
                ⟨mid, r.recipientPhone, r.conversationId, st, t, ec, em⟩]
            | none => [])
        ++ [Emission.broadcast "messageStatusChanged"
            ⟨mid, r.recipientPhone, r.conversationId, st, t, ec, em⟩] := by
  rw [updateStatus_found st t ec em h]
  rfl

theorem updateStatus_fanout_order_witness :
    findOne [sampleRecordConv] "m2" = some sampleRecordConv ∧
    (updateStatus [sampleRecordConv] "m2" DeliveryStatus.delivered 9 none none).2.2 =
      [Emission.toRoom ("status-" ++ sampleRecordConv.recipientPhone) "messageStatusUpdate"
          ⟨"m2", sampleRecordConv.recipientPhone, sampleRecordConv.conversationId,
            DeliveryStatus.delivered, 9, none, none⟩]
        ++ (match sampleRecordConv.conversationId with
            | some cid =>
              [Emission.toRoom ("conversation-" ++ cid) "messageStatusUpdate"
                ⟨"m2", sampleRecordConv.recipientPhone, sampleRecordConv.conversationId,
                  DeliveryStatus.delivered, 9, none, none⟩]
            | none => [])
        ++ [Emission.broadcast "messageStatusChanged"
            ⟨"m2", sampleRecordConv.recipientPhone, sampleRecordConv.conversationId,
              DeliveryStatus.delivered, 9, none, none⟩] :=
  ⟨by decide,
   updateStatus_fanout_order [sampleRecordConv] "m2" sampleRecordConv
     DeliveryStatus.delivered 9 none none (by decide)⟩

/-- C9: updateStatus on an existing record appends exactly one history entry
at the end, leaving the previous entries as an unchanged initial segment,
and does not modify messageId, recipientPhone, conversationId or metadata. -/
theorem updateStatus_frame (store : List MessageStatus) (mid : String) (r : MessageStatus)
    (st : DeliveryStatus) (t : Nat) (ec em : Option String)
    (h : findOne store mid = some r) :
    ((updateStatus store mid st t ec em).2.1).map MessageStatus.statusHistory
      = some (r.statusHistory ++ [⟨st, t, ec, em⟩]) ∧
    ((updateStatus store mid st t ec em).2.1).map (fun x => x.statusHistory.length)
      = some (r.statusHistory.length + 1) ∧
    ((updateStatus store mid st t ec em).2.1).map MessageStatus.messageId
      = some r.messageId ∧
    ((updateStatus store mid st t ec em).2.1).map MessageStatus.recipientPhone
      = some r.recipientPhone ∧
    ((updateStatus store mid st t ec em).2.1).map MessageStatus.conversationId
      = some r.conversationId ∧
    ((updateStatus store mid st t ec em).2.1).map MessageStatus.metadata
      = some r.metadata := by
  rw [updateStatus_found st t ec em h]
  exact ⟨by simp, by simp, by simp, by simp, by simp, by simp⟩

theorem updateStatus_frame_witness :
    findOne [sampleRecord] "m1" = some sampleRecord ∧
    (((updateStatus [sampleRecord] "m1" DeliveryStatus.failed 7
          (some "131026") (some "undeliverable")).2.1).map MessageStatus.statusHistory
      = some (sampleRecord.statusHistory ++
          [⟨DeliveryStatus.failed, 7, some "131026", some "undeliverable"⟩]) ∧
    ((updateStatus [sampleRecord] "m1" DeliveryStatus.failed 7
          (some "131026") (some "undeliverable")).2.1).map (fun x => x.statusHistory.length)
      = some (sampleRecord.statusHistory.length + 1) ∧
    ((updateStatus [sampleRecord] "m1" DeliveryStatus.failed 7
          (some "131026") (some "undeliverable")).2.1).map MessageStatus.messageId
      = some sampleRecord.messageId ∧
    ((updateStatus [sampleRecord] "m1" DeliveryStatus.failed 7
          (some "131026") (some "undeliverable")).2.1).map MessageStatus.recipientPhone
      = some sampleRecord.recipientPhone ∧
    ((updateStatus [sampleRecord] "m1" DeliveryStatus.failed 7
          (some "131026") (some "undeliverable")).2.1).map MessageStatus.conversationId
      = some sampleRecord.conversationId ∧
    ((updateStatus [sampleRecord] "m1" DeliveryStatus.failed 7
          (some "131026") (some "undeliverable")).2.1).map MessageStatus.metadata
      = some sampleRecord.metadata) :=
  ⟨by decide,
   updateStatus_frame [sampleRecord] "m1" sampleRecord DeliveryStatus.failed 7
     (some "131026") (some "undeliverable") (by decide)⟩

/-- C10: verifySignature never propagates the comparison exception: on any
byte-length mismatch between the presented signature and the expected one,
the try block yields the thrown error and the catch clause turns it into the
boolean false; in every case the function returns a plain boolean. -/
theorem verifySignature_length_mismatch_false (hmacHex : String → Bytes → Bytes)
    (appSecret : String) (payload sig : Bytes)
    (h : sig.length ≠ (expectedSignatureBytes hmacHex appSecret payload).length) :
    (verifySignature hmacHex appSecret payload sig = false ∨
      verifySignature hmacHex appSecret payload sig = true) ∧
    verifySignatureBody hmacHex appSecret payload sig = Except.error timingSafeEqualMsg ∧
    verifySignature hmacHex appSecret payload sig = false := by
  have hb : verifySignatureBody hmacHex appSecret payload sig
      = Except.error timingSafeEqualMsg := by
    unfold verifySignatureBody timingSafeEqual
    rw [if_neg h]
  have hv : verifySignature hmacHex appSecret payload sig = false := by
    unfold verifySignature
    rw [hb]
  exact ⟨Or.inl hv, hb, hv⟩

theorem verifySignature_length_mismatch_false_witness :
    (List.length ([1, 2, 3] : Bytes)
        ≠ (expectedSignatureBytes hmacSample "s" []).length) ∧
    ((verifySignature hmacSample "s" [] [1, 2, 3] = false ∨
      verifySignature hmacSample "s" [] [1, 2, 3] = true) ∧
    verifySignatureBody hmacSample "s" [] [1, 2, 3] = Except.error timingSafeEqualMsg ∧
    verifySignature hmacSample "s" [] [1, 2, 3] = false) :=
  ⟨by decide,
   verifySignature_length_mismatch_false hmacSample "s" [] [1, 2, 3] (by decide)⟩

end WhatsappApi
